import Mathlib

/-!
Verification of the news-ingestion / tension-scoring core of the
Monitor-de-temperatura repository.

The JavaScript modules `src/backend/tensionCalc.js`, `src/backend/claude.js`
and `src/backend/newsCron.js` are shallowly embedded below.  JavaScript
numbers are modelled as exact rationals (`ℚ`); `Math.round` is modelled as
round-half-up (`⌊q + 1/2⌋`), which is its behaviour on the magnitudes this
pipeline produces.  Stateful orchestration (`runNewsCycle`) is modelled as a
pure function from an explicit environment (the replies of the external
collaborators: search providers, classification gateway, store) to a trace of
observable effects plus the resulting guard state.
-/

namespace Monitor

/-! ## JavaScript value model (for the semantics of the insert-error check) -/

/-- A small fragment of the JavaScript value universe: enough to give the
exact semantics of `!insertError.code === '23505'` in `newsCron.js`. -/
inductive JsValue where
  | undef : JsValue
  | nullv : JsValue
  | bool (b : Bool) : JsValue
  | num (q : ℚ) : JsValue
  | str (s : String) : JsValue
deriving Repr, DecidableEq

/-- JavaScript truthiness of a value (`ToBoolean`). -/
def truthy : JsValue → Bool
  | .undef => false
  | .nullv => false
  | .bool b => b
  | .num q => !(q == 0)
  | .str s => !(s == "")

/-- JavaScript logical negation `!v`: always produces a boolean. -/
def jsNot (v : JsValue) : JsValue := .bool (!truthy v)

/-- JavaScript strict equality `===`: values of different runtime types are
never strictly equal. -/
def strictEq : JsValue → JsValue → Bool
  | .undef, .undef => true
  | .nullv, .nullv => true
  | .bool a, .bool b => a == b
  | .num a, .num b => a == b
  | .str a, .str b => a == b
  | _, _ => false

/-! ## String utilities (JS `toLowerCase` / `includes`) -/

/-- ASCII lower-casing of a string, modelling `String.prototype.toLowerCase`
on the inputs this pipeline handles. -/
def strLower (s : String) : String := String.mk (s.data.map Char.toLower)

/-- Whether `pre` is a prefix of `l` (character lists). -/
def isPrefixCh : List Char → List Char → Bool
  | [], _ => true
  | _ :: _, [] => false
  | a :: as, b :: bs => a == b && isPrefixCh as bs

/-- Whether `needle` occurs as a contiguous segment of `hay` (character
lists). -/
def containsSeg (needle : List Char) : List Char → Bool
  | [] => needle.isEmpty
  | b :: bs => isPrefixCh needle (b :: bs) || containsSeg needle bs

/-- JS `hay.includes(needle)`. -/
def strIncludes (hay needle : String) : Bool := containsSeg needle.data hay.data

/-! ## tensionCalc.js -/

/-- CATEGORY_SCORES object of tensionCalc.js: per-category base weight. -/
def CATEGORY_SCORES (c : String) : Option ℚ :=
  if c == "military" then some 8
  else if c == "nuclear" then some 6
  else if c == "economic" then some 5
  else if c == "cyber" then some 4
  else if c == "diplomatic" then some 3
  else if c == "other" then some 1
  else none

/-- CRITICAL_KEYWORDS list of tensionCalc.js. -/
def CRITICAL_KEYWORDS : List String :=
  [ "strike", "attack", "missile", "launched", "fired", "bomb",
    "retaliation", "war", "invasion", "nuclear weapon", "warhead",
    "ataque", "míssil", "guerra", "bomba", "retaliação",
    "ضربة", "صاروخ", "حرب" ]

/-- DEESCALATION_KEYWORDS list of tensionCalc.js. -/
def DEESCALATION_KEYWORDS : List String :=
  [ "negotiation", "agreement", "deal", "ceasefire", "diplomacy",
    "talks", "peace", "accord", "dialogue",
    "negociação", "acordo", "cessar-fogo", "diplomacia", "paz" ]

/-- JS `Math.round`: round half toward positive infinity. -/
def jsRound (q : ℚ) : ℤ := ⌊q + 1/2⌋

/-- JS `Math.round(x * 100) / 100`: round to two decimal places. -/
def round2 (q : ℚ) : ℚ := (jsRound (q * 100) : ℚ) / 100

/-- Whether the (already lower-cased) title contains some critical keyword:
the `CRITICAL_KEYWORDS.some(kw => titleLower.includes(kw))` test. -/
def hasCriticalKw (titleLower : String) : Bool :=
  CRITICAL_KEYWORDS.any (fun kw => strIncludes titleLower kw)

/-- Whether the (already lower-cased) title contains some de-escalation
keyword. -/
def hasDeescalationKw (titleLower : String) : Bool :=
  DEESCALATION_KEYWORDS.any (fun kw => strIncludes titleLower kw)

/-- calculateTensionDelta of tensionCalc.js (lines 35-56). -/
def calculateTensionDelta (category : String) (aiScore : ℚ) (title : String) : ℚ :=
  let titleLower := strLower title
  let baseScore := (CATEGORY_SCORES category).getD 1
  let aiMultiplier := 1/2 + aiScore / 10
  let delta0 := baseScore * aiMultiplier
  let delta1 := if hasCriticalKw titleLower then delta0 * (13/10) else delta0
  let delta2 := if hasDeescalationKw titleLower then delta1 * (-(1/2)) else delta1
  round2 delta2

/-- applyTensionDelta of tensionCalc.js (lines 64-72). -/
def applyTensionDelta (current delta : ℚ) : ℚ :=
  let newValue := current + delta
  let BASELINE : ℚ := 60
  let GRAVITY : ℚ := 2/100
  let withGravity := newValue + (BASELINE - newValue) * GRAVITY
  min 100 (max 0 (round2 withGravity))

/-- ALERT_KEYWORDS list inside shouldTriggerAlert of tensionCalc.js. -/
def ALERT_KEYWORDS : List String :=
  [ "strike", "missile", "retaliation", "attack", "nuclear weapon",
    "enrichment above 80", "warship", "blockade", "explosion",
    "ataque", "míssil", "retaliação", "bloqueio" ]

/-- The event object handed to shouldTriggerAlert by newsCron.js:
`{ ...article, impact_score }` — only the fields the function reads. -/
structure AlertQuery where
  title : String
  description : String
  impact_score : ℚ
deriving Repr, DecidableEq

/-- shouldTriggerAlert of tensionCalc.js (lines 88-100). -/
def shouldTriggerAlert (event : AlertQuery) : Bool :=
  let text := strLower (event.title ++ " " ++ event.description)
  decide (event.impact_score ≥ 8) || ALERT_KEYWORDS.any (fun kw => strIncludes text kw)

/-! ## claude.js -/

/-- The parsed gateway JSON of claude.js classifyNewsEvent: the schema the
prompt requests. -/
structure Classification where
  category : String
  impact_score : ℚ
  is_critical : Bool
  summary_pt : String
  summary_en : String
  keywords : List String
deriving Repr, DecidableEq

/-- classifyNewsEvent of claude.js (lines 70-116).  The external call and
JSON parse are modelled by `gatewayResult`: `some c` when the (fence-stripped)
response parses to `c`, `none` when the call or the parse fails, in which case
the catch block substitutes the deterministic safe default. -/
def classifyNewsEvent (title : String) (gatewayResult : Option Classification) :
    Classification :=
  match gatewayResult with
  | some c => c
  | none =>
    { category := "other"
      impact_score := 3
      is_critical := false
      summary_pt := title.take 100
      summary_en := title.take 100
      keywords := [] }

/-- The per-language title map returned by translateNewsTitle. -/
structure Translations where
  pt : String
  es : String
  ar : String
  fa : String
deriving Repr, DecidableEq

/-- translateNewsTitle of claude.js (lines 121-148): on any failure every
language falls back to the original title. -/
def translateNewsTitle (titleEn : String) (gatewayResult : Option Translations) :
    Translations :=
  gatewayResult.getD { pt := titleEn, es := titleEn, ar := titleEn, fa := titleEn }

/-! ## newsCron.js: per-article processing

The orchestrator is modelled as a pure function from an explicit environment
(the replies of the fetcher, gateways and store) to a trace of observable
effects.  We record for each article the tension accumulator, the row sent to
the store, whether an alert was queued, and the raw score handed to
calculateTensionDelta. -/

/-- An Article as produced by fetchLatestNews (the fields newsCron.js reads). -/
structure Article where
  title : String
  description : String
  url : String
  source : String
  published_at : String
deriving Repr, DecidableEq

/-- The news_events row built by the insert call at newsCron.js lines 79-100;
`.select().single()` echoes the inserted row back as `savedEvent`. -/
structure SavedEvent where
  title : String
  description : String
  url : String
  source : String
  published_at : String
  category : String
  impact_score : ℚ
  is_critical : Bool
  ai_summary : String
  keywords : List String
  tension_delta : ℚ
  title_en : String
  title_pt : String
  title_es : String
  title_ar : String
  title_fa : String
deriving Repr, DecidableEq

/-- The error object supabase returns on a failed insert; newsCron.js only
inspects its `code` field. -/
structure InsertErrorObj where
  code : JsValue
deriving Repr, DecidableEq

/-- The condition of the dead `if` at newsCron.js line 104:
`!insertError.code === '23505'` — `!` binds before `===`. -/
def insertErrorLogCheck (insertError : InsertErrorObj) : Bool :=
  strictEq (jsNot insertError.code) (.str "23505")

/-- The store's reply to the insert call. -/
inductive StoreReply where
  | accept : StoreReply
  | reject (e : InsertErrorObj) : StoreReply
deriving Repr, DecidableEq

/-- Row-level checks of src/schema.sql on news_events (lines 51-52):
`category IN ('military','nuclear','diplomatic','economic','cyber','other')`
and `impact_score >= 0 AND impact_score <= 10`. -/
def schemaOk (r : SavedEvent) : Bool :=
  (r.category ∈ ["military", "nuclear", "diplomatic", "economic", "cyber", "other"])
    && decide (0 ≤ r.impact_score) && decide (r.impact_score ≤ 10)

/-- The store's insert semantics: a row violating a CHECK constraint of
src/schema.sql is always rejected with Postgres error 23514; otherwise the
environment decides (accept, or e.g. a 23505 duplicate-key race). -/
def insertOutcome (r : SavedEvent) (reply : StoreReply) : StoreReply :=
  if schemaOk r then reply else .reject { code := .str "23514" }

/-- Everything environmental that can vary while one article is processed. -/
structure ArticleEnv where
  /-- some step of the article body threw (caught by the per-article catch) -/
  crash : Bool
  /-- the dedup pre-check found the URL already stored -/
  existsInDb : Bool
  /-- parsed classification gateway reply (`none` = parse/transport failure) -/
  classifyResult : Option Classification
  /-- parsed translation gateway reply (`none` = failure) -/
  translateResult : Option Translations
  /-- the store's reply to a schema-respecting insert -/
  insertReply : StoreReply
deriving Repr, DecidableEq

/-- Observable effects of a cycle, in order of occurrence. -/
inductive Effect where
  | warn : Effect
  | fetchNews : Effect
  | classifyCall : Effect
  | translateCall : Effect
  | insertAttempt : Effect
  | persistEvent : Effect
  | persistTension : Effect
  | alertDispatch : Effect
  | logInsertError : Effect
  | logArticleError : Effect
  | logCycleError : Effect
deriving Repr, DecidableEq

/-- An entry of the `alertsToFire` queue (newsCron.js lines 115-119). -/
structure AlertItem where
  event : SavedEvent
  score : ℚ
  summary : String
deriving Repr, DecidableEq

/-- Result of processing one article inside the loop of runNewsCycle. -/
structure ArticleResult where
  /-- the tension accumulator after this article -/
  tension : ℚ
  /-- the entry pushed onto `alertsToFire`, if any -/
  queued : Option AlertItem
  /-- the row the store accepted, if any -/
  persisted : Option SavedEvent
  /-- the aiScore argument handed to calculateTensionDelta, if reached -/
  deltaInput : Option ℚ
  /-- observable effects of this article -/
  trace : List Effect
deriving Repr, DecidableEq

/-- The news_events row assembled at newsCron.js lines 81-98. -/
def buildRecord (a : Article) (c : Classification) (tr : Translations) (delta : ℚ) :
    SavedEvent :=
  { title := a.title
    description := a.description
    url := a.url
    source := a.source
    published_at := a.published_at
    category := c.category
    impact_score := c.impact_score
    is_critical := c.is_critical ||
      shouldTriggerAlert { title := a.title, description := a.description,
                           impact_score := c.impact_score }
    ai_summary := c.summary_pt
    keywords := c.keywords
    tension_delta := delta
    title_en := a.title
    title_pt := tr.pt
    title_es := tr.es
    title_ar := tr.ar
    title_fa := tr.fa }

/-- One iteration of the per-article loop of runNewsCycle
(newsCron.js lines 51-135), with its per-article try/catch. -/
def processArticle (currentTension : ℚ) (a : Article) (env : ArticleEnv) :
    ArticleResult :=
  if env.crash then
    { tension := currentTension, queued := none, persisted := none,
      deltaInput := none, trace := [.logArticleError] }
  else if env.existsInDb then
    { tension := currentTension, queued := none, persisted := none,
      deltaInput := none, trace := [] }
  else
    let c := classifyNewsEvent a.title env.classifyResult
    let tr := translateNewsTitle a.title env.translateResult
    let delta := calculateTensionDelta c.category c.impact_score a.title
    let record := buildRecord a c tr delta
    match insertOutcome record env.insertReply with
    | .reject e =>
      { tension := currentTension, queued := none, persisted := none,
        deltaInput := some c.impact_score,
        trace := [.classifyCall, .translateCall, .insertAttempt] ++
          (if insertErrorLogCheck e then [.logInsertError] else []) }
    | .accept =>
      { tension := applyTensionDelta currentTension delta
        queued :=
          if record.is_critical || decide (c.impact_score ≥ 8) then
            some { event := record, score := c.impact_score, summary := c.summary_pt }
          else none
        persisted := some record
        deltaInput := some c.impact_score
        trace := [.classifyCall, .translateCall, .insertAttempt, .persistEvent] }

/-! ## newsCron.js: the cycle orchestrator -/

/-- The fetchLatestNews outcome: a batch (each article paired with the
environment of its processing) or a thrown error. -/
inductive FetchOutcome where
  | ok (batch : List (Article × ArticleEnv)) : FetchOutcome
  | exn : FetchOutcome

/-- Everything environmental for one invocation of runNewsCycle. -/
structure CycleEnv where
  fetch : FetchOutcome
  /-- latest tension_history row, if any (`tension_value` field) -/
  latestTension : Option ℚ
  /-- the post-loop tension_history insert threw -/
  tensionInsertThrows : Bool

/-- The coalesce at newsCron.js line 47:
`latestTension?.tension_value || 75` under JS truthiness. -/
def initialTension (latest : Option ℚ) : ℚ :=
  match latest with
  | none => 75
  | some v => if v = 0 then 75 else v

/-- The body of the outer `try` of runNewsCycle (newsCron.js lines 31-152):
returns the effects performed and whether an exception escaped to the outer
catch. -/
def runCycleBody (env : CycleEnv) : List Effect × Bool :=
  match env.fetch with
  | .exn => ([.fetchNews], true)
  | .ok batch =>
    if batch.isEmpty then ([.fetchNews], false)
    else
      let t0 := initialTension env.latestTension
      let step := fun (acc : ℚ × List AlertItem × List Effect)
          (p : Article × ArticleEnv) =>
        let r := processArticle acc.1 p.1 p.2
        (r.tension, acc.2.1 ++ r.queued.toList, acc.2.2 ++ r.trace)
      let res := batch.foldl step (t0, [], [])
      let trace := Effect.fetchNews :: res.2.2
      if env.tensionInsertThrows then (trace ++ [.persistTension], true)
      else (trace ++ [.persistTension] ++ res.2.1.map (fun _ => .alertDispatch), false)

/-- runNewsCycle of newsCron.js (lines 21-158): the single-flight guard check,
the guarded body with its outer try/catch, and the `finally` that clears the
guard.  Input `isRunning` is the module-scoped guard at entry; the returned
Bool is the guard after the call returns. -/
def runNewsCycle (isRunning : Bool) (env : CycleEnv) : Bool × List Effect :=
  if isRunning then (isRunning, [.warn])
  else
    let body := runCycleBody env
    let trace := body.1 ++ (if body.2 then [Effect.logCycleError] else [])
    (false, trace)

/-! ## Concrete inputs used by counterexamples and witnesses -/

/-- An article whose title matches no keyword list. -/
def plainArticle : Article :=
  { title := "plain title", description := "", url := "u5", source := "s",
    published_at := "p" }

/-- Environment: gateway classifies as military with score 9, store accepts. -/
def envScoreNine : ArticleEnv :=
  { crash := false, existsInDb := false,
    classifyResult := some ⟨"military", 9, false, "sum", "sum", []⟩,
    translateResult := none, insertReply := .accept }

/-- An article with a neutral title for the out-of-range-score scenario. -/
def risesArticle : Article :=
  { title := "iran tension rises", description := "", url := "u1", source := "s",
    published_at := "p" }

/-- Environment: the gateway returns impact_score 15, outside [0,10]. -/
def envScoreFifteen : ArticleEnv :=
  { crash := false, existsInDb := false,
    classifyResult := some ⟨"military", 15, false, "r", "r", []⟩,
    translateResult := none, insertReply := .accept }

/-- An article whose title contains alert keywords. -/
def missileArticle : Article :=
  { title := "missile strike on base", description := "", url := "u9", source := "s",
    published_at := "p" }

/-- Environment: the classification gateway response fails to parse. -/
def envParseFail : ArticleEnv :=
  { crash := false, existsInDb := false, classifyResult := none,
    translateResult := none, insertReply := .accept }

/-! ## Helper lemmas -/

/-- The condition `!insertError.code === '23505'` is false for every error
value: `!` yields a boolean and `===` against a string is always false. -/
lemma insertErrorLogCheck_false (e : InsertErrorObj) : insertErrorLogCheck e = false := rfl

/-- The base weight looked up in CATEGORY_SCORES (with the `|| 1` default) is
at least 1. -/
lemma one_le_categoryScore (c : String) : (1:ℚ) ≤ (CATEGORY_SCORES c).getD 1 := by
  unfold CATEGORY_SCORES
  split_ifs <;> norm_num

/-- Rounding to two decimals keeps a value below the half-cent threshold
strictly negative. -/
lemma round2_lt_zero (q : ℚ) (h : q < -(1/200)) : round2 q < 0 := by
  unfold round2 jsRound
  have h1 : q * 100 + 1/2 < ((0:ℤ):ℚ) := by push_cast; linarith
  have h2 : ⌊q * 100 + 1/2⌋ < (0:ℤ) := Int.floor_lt.mpr h1
  have h3 : ((⌊q * 100 + 1/2⌋ : ℤ) : ℚ) < 0 := by exact_mod_cast h2
  exact div_neg_of_neg_of_pos h3 (by norm_num)

/-- Shape of processArticle in the successful-insert case. -/
lemma processArticle_accept_eq (t : ℚ) (a : Article) (cres : Option Classification)
    (tres : Option Translations)
    (hs : schemaOk (buildRecord a (classifyNewsEvent a.title cres)
        (translateNewsTitle a.title tres)
        (calculateTensionDelta (classifyNewsEvent a.title cres).category
          (classifyNewsEvent a.title cres).impact_score a.title)) = true) :
    processArticle t a ⟨false, false, cres, tres, .accept⟩ =
      { tension := applyTensionDelta t
          (calculateTensionDelta (classifyNewsEvent a.title cres).category
            (classifyNewsEvent a.title cres).impact_score a.title)
        queued :=
          if (buildRecord a (classifyNewsEvent a.title cres)
                (translateNewsTitle a.title tres)
                (calculateTensionDelta (classifyNewsEvent a.title cres).category
                  (classifyNewsEvent a.title cres).impact_score a.title)).is_critical
              || decide ((classifyNewsEvent a.title cres).impact_score ≥ 8) then
            some { event := buildRecord a (classifyNewsEvent a.title cres)
                     (translateNewsTitle a.title tres)
                     (calculateTensionDelta (classifyNewsEvent a.title cres).category
                       (classifyNewsEvent a.title cres).impact_score a.title),
                   score := (classifyNewsEvent a.title cres).impact_score,
                   summary := (classifyNewsEvent a.title cres).summary_pt }
          else none
        persisted := some (buildRecord a (classifyNewsEvent a.title cres)
            (translateNewsTitle a.title tres)
            (calculateTensionDelta (classifyNewsEvent a.title cres).category
              (classifyNewsEvent a.title cres).impact_score a.title))
        deltaInput := some (classifyNewsEvent a.title cres).impact_score
        trace := [.classifyCall, .translateCall, .insertAttempt, .persistEvent] } := by
  simp only [processArticle, Bool.false_eq_true, if_false, insertOutcome, hs, if_true]

/-! ## Claim theorems -/

/-- C2: for every insert error value, the orchestrator condition
`!insertError.code === '23505'` evaluates to false (`!` binds before `===`),
so the error-logging branch of runNewsCycle is unreachable and every
persistence error — duplicate-key or genuine — is ignored and the loop
continues. -/
theorem c2_insert_error_check_degenerate :
    (∀ e : InsertErrorObj, insertErrorLogCheck e = false)
    ∧ (∀ (t : ℚ) (a : Article) (env : ArticleEnv),
        Effect.logInsertError ∉ (processArticle t a env).trace) := by
  refine ⟨fun e => rfl, fun t a env => ?_⟩
  obtain ⟨crash, exIn, cres, tres, irep⟩ := env
  cases crash
  case true => simp [processArticle]
  case' false =>
  cases exIn
  case true => simp [processArticle]
  case false =>
    simp only [processArticle, Bool.false_eq_true, if_false]
    split
    next e heq => simp [insertErrorLogCheck_false]
    next heq => intro hmem; simp at hmem

/-- C3: invoking runNewsCycle while the single-flight guard is set performs
no fetch, no classification, no persistence write and no alert dispatch; the
invocation returns at once having only logged a warning. -/
theorem c3_single_flight_drop (env : CycleEnv) :
    runNewsCycle true env = (true, [Effect.warn])
    ∧ Effect.fetchNews ∉ (runNewsCycle true env).2
    ∧ Effect.classifyCall ∉ (runNewsCycle true env).2
    ∧ Effect.insertAttempt ∉ (runNewsCycle true env).2
    ∧ Effect.persistEvent ∉ (runNewsCycle true env).2
    ∧ Effect.persistTension ∉ (runNewsCycle true env).2
    ∧ Effect.alertDispatch ∉ (runNewsCycle true env).2 := by
  refine ⟨rfl, ?_, ?_, ?_, ?_, ?_, ?_⟩ <;> simp [runNewsCycle]

/-- C4: on every exit path of runNewsCycle — normal completion, the early
return on an empty batch, and any exception escaping to the outer catch —
the single-flight guard is false when the call returns (the cleanup step is
unconditional). -/
theorem c4_guard_released (env : CycleEnv) : (runNewsCycle false env).1 = false := rfl

/-- C7: calculateTensionDelta on a military event with score 10 and the
title "missile strike reported" yields exactly 15.6: base weight 8, AI
multiplier 1.5, critical-keyword multiplier 1.3, and no de-escalation
multiplier. -/
theorem c7_military_missile_value :
    calculateTensionDelta "military" 10 "missile strike reported" = 15.6
    ∧ hasCriticalKw (strLower "missile strike reported") = true
    ∧ hasDeescalationKw (strLower "missile strike reported") = false
    ∧ CATEGORY_SCORES "military" = some 8 := by
  have hc : hasCriticalKw (strLower "missile strike reported") = true := by decide
  have hd : hasDeescalationKw (strLower "missile strike reported") = false := by decide
  have hcat : CATEGORY_SCORES "military" = some 8 := by decide
  refine ⟨?_, hc, hd, hcat⟩
  simp only [calculateTensionDelta, hc, hd, if_true, Bool.false_eq_true, if_false,
    hcat, Option.getD_some]
  norm_num [round2, jsRound]

/-- C8: applyTensionDelta always lands in [0,100], and the baseline 60 with
zero delta is a fixed point (the gravity term vanishes there). -/
theorem c8_tension_bounds_and_fixed_point :
    (∀ current delta : ℚ, 0 ≤ applyTensionDelta current delta
      ∧ applyTensionDelta current delta ≤ 100)
    ∧ applyTensionDelta 60 0 = 60 := by
  constructor
  · intro current delta
    unfold applyTensionDelta
    exact ⟨le_min (by norm_num) (le_max_left 0 _), min_le_left _ _⟩
  · norm_num [applyTensionDelta, round2, jsRound]

/-- C10: with no prior tension sample, or a latest sample whose value is the
falsy 0, the cycle coalesces to 75 — not to the mean-reversion baseline 60. -/
theorem c10_initial_tension_seventy_five :
    initialTension none = 75 ∧ initialTension (some 0) = 75
    ∧ initialTension none ≠ 60 ∧ initialTension (some 0) ≠ 60 := by
  refine ⟨rfl, ?_, by norm_num [initialTension], ?_⟩
  · norm_num [initialTension]
  · norm_num [initialTension]

/-- C5: whenever an article is successfully persisted, the event is queued
for alerting exactly when the classification is critical, or
shouldTriggerAlert holds for the article with its impact score, or the
impact score is at least 8 — the code's two-stage test equals the three-way
disjunction. -/
theorem c5_alert_queue_iff (t : ℚ) (a : Article) (env : ArticleEnv)
    (h : (processArticle t a env).persisted.isSome = true) :
    ((processArticle t a env).queued.isSome = true ↔
      ((classifyNewsEvent a.title env.classifyResult).is_critical = true ∨
       shouldTriggerAlert
         ⟨a.title, a.description, (classifyNewsEvent a.title env.classifyResult).impact_score⟩
           = true ∨
       8 ≤ (classifyNewsEvent a.title env.classifyResult).impact_score)) := by
  obtain ⟨crash, exIn, cres, tres, irep⟩ := env
  cases crash
  case true => simp [processArticle] at h
  case' false =>
  cases exIn
  case true => simp [processArticle] at h
  case' false =>
  simp only [processArticle, Bool.false_eq_true, if_false] at h ⊢
  by_cases hs : schemaOk (buildRecord a (classifyNewsEvent a.title cres)
      (translateNewsTitle a.title tres)
      (calculateTensionDelta (classifyNewsEvent a.title cres).category
        (classifyNewsEvent a.title cres).impact_score a.title)) = true
  case neg =>
    simp only [insertOutcome, hs, if_false, Bool.false_eq_true] at h
    simp at h
  case pos =>
    simp only [insertOutcome, hs, if_true] at h ⊢
    cases irep
    case reject e => simp at h
    case accept =>
    simp only [buildRecord] at h ⊢
    constructor
    · intro hq
      by_contra hcon
      push_neg at hcon
      obtain ⟨h1, h2, h3⟩ := hcon
      simp [Bool.not_eq_true] at h1 h2
      simp [h1, h2] at hq
      exact absurd hq (not_le.mpr h3)
    · intro hdisj
      rcases hdisj with h1 | h2 | h3
      · simp [h1]
      · simp [h2]
      · simp [decide_eq_true (by exact h3 : (8:ℚ) ≤ _)]

/-- C5 witness: a persisted military article with score 9 instantiates the
queue-iff equivalence. -/
theorem c5_alert_queue_witness :
    (processArticle 70 plainArticle envScoreNine).persisted.isSome = true
    ∧ ((processArticle 70 plainArticle envScoreNine).queued.isSome = true ↔
        ((classifyNewsEvent plainArticle.title envScoreNine.classifyResult).is_critical = true ∨
         shouldTriggerAlert
           ⟨plainArticle.title, plainArticle.description,
             (classifyNewsEvent plainArticle.title envScoreNine.classifyResult).impact_score⟩
             = true ∨
         8 ≤ (classifyNewsEvent plainArticle.title envScoreNine.classifyResult).impact_score)) :=
  ⟨by decide, c5_alert_queue_iff 70 plainArticle envScoreNine (by decide)⟩

/-- C1 counterexample: when the gateway returns impact_score 15, the value
handed to calculateTensionDelta by the pipeline is 15 itself — outside
[0,10], neither rejected nor clamped before that use; only the store's CHECK
constraint later refuses the row. -/
theorem c1_unclamped_score_cex :
    (processArticle 75 risesArticle envScoreFifteen).deltaInput = some 15
    ∧ ¬((15:ℚ) ≤ 10)
    ∧ (processArticle 75 risesArticle envScoreFifteen).persisted = none :=
  ⟨by decide, by decide, by decide⟩

/-- C1 amended: every row the store accepts has impact_score in [0,10]
(schema CHECK), but the score passed to calculateTensionDelta is the raw
gateway value, used without any rejection or clamping. -/
theorem c1_score_flow_amended (t : ℚ) (a : Article) (env : ArticleEnv) :
    ((processArticle t a env).persisted.elim True
      (fun ev => 0 ≤ ev.impact_score ∧ ev.impact_score ≤ 10))
    ∧ (env.crash = false → env.existsInDb = false →
        (processArticle t a env).deltaInput =
          some (classifyNewsEvent a.title env.classifyResult).impact_score) := by
  obtain ⟨crash, exIn, cres, tres, irep⟩ := env
  constructor
  · cases crash
    case true => simp [processArticle, Option.elim]
    case false =>
      cases exIn
      case true => simp [processArticle, Option.elim]
      case false =>
        simp only [processArticle, Bool.false_eq_true, if_false]
        split
        next e heq => simp
        next heq =>
          simp only [insertOutcome] at heq
          split at heq
          next hs =>
            simp only [Option.elim]
            simp only [schemaOk, Bool.and_eq_true, decide_eq_true_eq] at hs
            exact ⟨hs.1.2, hs.2⟩
          next hs => simp at heq
  · intro h1 h2
    simp only at h1 h2
    subst h1; subst h2
    simp only [processArticle, Bool.false_eq_true, if_false]
    split
    next e heq => rfl
    next heq => rfl

/-- C1 witness: the amended statement at a concrete in-range article. -/
theorem c1_score_flow_witness :
    ((processArticle 70 plainArticle envScoreNine).persisted.elim True
      (fun ev => 0 ≤ ev.impact_score ∧ ev.impact_score ≤ 10))
    ∧ (processArticle 70 plainArticle envScoreNine).deltaInput =
        some (classifyNewsEvent plainArticle.title envScoreNine.classifyResult).impact_score :=
  ⟨(c1_score_flow_amended 70 plainArticle envScoreNine).1,
   (c1_score_flow_amended 70 plainArticle envScoreNine).2 rfl rfl⟩

/-- C6 counterexample: for the title "missile peace" (critical and
de-escalation keyword both present), category "other" and aiScore -4.95 the
base product is positive but the rounded result is 0, not negative — the
negativity rider of the claim fails at this input. -/
theorem c6_sign_cex :
    hasCriticalKw (strLower "missile peace") = true
    ∧ hasDeescalationKw (strLower "missile peace") = true
    ∧ 0 < (CATEGORY_SCORES "other").getD 1 * (1/2 + (-(99/20) : ℚ)/10)
    ∧ calculateTensionDelta "other" (-(99/20)) "missile peace" = 0
    ∧ ¬(calculateTensionDelta "other" (-(99/20)) "missile peace" < 0) := by
  have hc : hasCriticalKw (strLower "missile peace") = true := by decide
  have hd : hasDeescalationKw (strLower "missile peace") = true := by decide
  have hcat : CATEGORY_SCORES "other" = some 1 := by decide
  have heq : calculateTensionDelta "other" (-(99/20)) "missile peace" = 0 := by
    simp only [calculateTensionDelta, hc, hd, if_true, hcat, Option.getD_some]
    norm_num [round2, jsRound]
  refine ⟨hc, hd, ?_, heq, ?_⟩
  · rw [hcat]; norm_num
  · rw [heq]; norm_num

/-- C6 amended: when the lower-cased title matches both keyword lists, both
multipliers apply in sequence — the result is
round2(base × (0.5 + aiScore/10) × 1.3 × (−0.5)) — and it is negative
whenever aiScore is non-negative (the base product then clears the rounding
threshold). -/
theorem c6_both_multipliers_amended (category : String) (aiScore : ℚ) (title : String)
    (hc : hasCriticalKw (strLower title) = true)
    (hd : hasDeescalationKw (strLower title) = true) :
    calculateTensionDelta category aiScore title
      = round2 ((CATEGORY_SCORES category).getD 1 * (1/2 + aiScore/10)
          * (13/10) * (-(1/2)))
    ∧ (0 ≤ aiScore → calculateTensionDelta category aiScore title < 0) := by
  have he : calculateTensionDelta category aiScore title
      = round2 ((CATEGORY_SCORES category).getD 1 * (1/2 + aiScore/10)
          * (13/10) * (-(1/2))) := by
    simp only [calculateTensionDelta, hc, hd, if_true]
  refine ⟨he, fun ha => ?_⟩
  rw [he]
  apply round2_lt_zero
  have hb := one_le_categoryScore category
  have hm : (1:ℚ)/2 ≤ 1/2 + aiScore/10 := by linarith
  have hm0 : (0:ℚ) ≤ 1/2 + aiScore/10 := by linarith
  have hbm : (1:ℚ)/2 ≤ (CATEGORY_SCORES category).getD 1 * (1/2 + aiScore/10) := by
    have h1 := mul_le_mul_of_nonneg_right hb hm0
    rw [one_mul] at h1
    linarith
  nlinarith [hbm]

/-- C6 witness: the amended statement at category military, score 10, title
"missile peace". -/
theorem c6_both_multipliers_witness :
    hasCriticalKw (strLower "missile peace") = true
    ∧ hasDeescalationKw (strLower "missile peace") = true
    ∧ calculateTensionDelta "military" 10 "missile peace"
        = round2 ((CATEGORY_SCORES "military").getD 1 * (1/2 + (10:ℚ)/10)
            * (13/10) * (-(1/2)))
    ∧ calculateTensionDelta "military" 10 "missile peace" < 0 :=
  ⟨by decide, by decide,
   (c6_both_multipliers_amended "military" 10 "missile peace" (by decide) (by decide)).1,
   (c6_both_multipliers_amended "military" 10 "missile peace" (by decide) (by decide)).2
     (by norm_num)⟩

/-- C9 counterexample: on a parse failure the safe default has
is_critical = false, yet the persisted row for "missile strike on base"
carries is_critical = true, because the insert ORs the flag with
shouldTriggerAlert — the article is not persisted "with those values". -/
theorem c9_safe_default_cex :
    (classifyNewsEvent "missile strike on base" none).is_critical = false
    ∧ ((processArticle 75 missileArticle envParseFail).persisted.map
        SavedEvent.is_critical) = some true :=
  ⟨by decide, by decide⟩

/-- C9 amended: on a parse failure classifyNewsEvent returns the
deterministic safe default instead of raising, and the article is persisted
with category other, impact_score 3, empty keywords and the truncated-title
summary; the persisted is_critical flag equals shouldTriggerAlert on the
article text with score 3 (false exactly when no alert keyword occurs). -/
theorem c9_safe_default_amended (t : ℚ) (a : Article) (env : ArticleEnv)
    (h1 : env.classifyResult = none) (h2 : env.crash = false)
    (h3 : env.existsInDb = false) (h4 : env.insertReply = .accept) :
    classifyNewsEvent a.title env.classifyResult =
      { category := "other", impact_score := 3, is_critical := false,
        summary_pt := a.title.take 100, summary_en := a.title.take 100, keywords := [] }
    ∧ ∃ ev : SavedEvent, (processArticle t a env).persisted = some ev
        ∧ ev.category = "other" ∧ ev.impact_score = 3 ∧ ev.keywords = []
        ∧ ev.ai_summary = a.title.take 100
        ∧ ev.is_critical = shouldTriggerAlert ⟨a.title, a.description, 3⟩ := by
  obtain ⟨crash, exIn, cres, tres, irep⟩ := env
  simp only at h1 h2 h3 h4
  subst h1; subst h2; subst h3; subst h4
  have hs : schemaOk (buildRecord a (classifyNewsEvent a.title none)
      (translateNewsTitle a.title tres)
      (calculateTensionDelta (classifyNewsEvent a.title none).category
        (classifyNewsEvent a.title none).impact_score a.title)) = true := by
    simp [schemaOk, buildRecord, classifyNewsEvent]
    norm_num
  rw [processArticle_accept_eq t a none tres hs]
  refine ⟨rfl, ⟨buildRecord a (classifyNewsEvent a.title none)
      (translateNewsTitle a.title tres)
      (calculateTensionDelta (classifyNewsEvent a.title none).category
        (classifyNewsEvent a.title none).impact_score a.title),
    rfl, ?_, ?_, ?_, ?_, ?_⟩⟩
  · simp [buildRecord, classifyNewsEvent]
  · simp [buildRecord, classifyNewsEvent]
  · simp [buildRecord, classifyNewsEvent]
  · simp [buildRecord, classifyNewsEvent]
  · simp [buildRecord, classifyNewsEvent]

/-- C9 witness: the amended statement for a keyword-free article under a
parse failure with an accepting store. -/
theorem c9_safe_default_witness :
    classifyNewsEvent plainArticle.title envParseFail.classifyResult =
      { category := "other", impact_score := 3, is_critical := false,
        summary_pt := plainArticle.title.take 100,
        summary_en := plainArticle.title.take 100, keywords := [] }
    ∧ ∃ ev : SavedEvent, (processArticle 75 plainArticle envParseFail).persisted = some ev
        ∧ ev.category = "other" ∧ ev.impact_score = 3 ∧ ev.keywords = []
        ∧ ev.ai_summary = plainArticle.title.take 100
        ∧ ev.is_critical = shouldTriggerAlert
            ⟨plainArticle.title, plainArticle.description, 3⟩ :=
  c9_safe_default_amended 75 plainArticle envParseFail rfl rfl rfl rfl

end Monitor
